import Mathlib

/-!
Shallow embedding of `src/app/server.py` (Klin robot-control server,
simulated backend). The module-level dict `pin_states` becomes the
structure `PinStates`; each Flask route handler becomes a pure function
`PinStates → PinStates × Response` (or just `Response` when it does not
touch state). HTTP responses are modelled as a flat JSON object
(association list of string key/value pairs) plus a status code.
-/

/-- State of every simulated pin, mirroring the `pin_states` dict:
the four motor pins (keyed by BCM number in the source) and the ten
string-keyed accessory pins. -/
structure PinStates where
  p17 : Bool
  p18 : Bool
  p22 : Bool
  p23 : Bool
  pump : Bool
  vacuum : Bool
  centre : Bool
  side : Bool
  mop : Bool
  mop_up : Bool
  mop_down : Bool
  centre_brush : Bool
  centre_brush_up : Bool
  centre_brush_down : Bool
deriving DecidableEq, Repr

/-- Initial `pin_states`: every pin low. -/
def initial_pin_states : PinStates :=
  ⟨false, false, false, false, false, false, false, false, false, false,
   false, false, false, false⟩

/-- A JSON response as produced by `jsonify(obj), code`: the object is a
flat map from string keys to string values. -/
structure Response where
  body : List (String × String)
  code : Nat
deriving DecidableEq, Repr

/-- The `MOTOR_PINS` dict: direction name to BCM pin number. -/
def MOTOR_PINS : List (String × Nat) :=
  [("forward", 17), ("backward", 18), ("left", 22), ("right", 23)]

/-- Lookup in `MOTOR_PINS` (`direction in MOTOR_PINS` / `MOTOR_PINS[direction]`). -/
def motorPin (direction : String) : Option Nat :=
  if direction = "forward" then some 17
  else if direction = "backward" then some 18
  else if direction = "left" then some 22
  else if direction = "right" then some 23
  else none

/-- Write `pin_states[pin] = v` for a motor pin number. -/
def setMotorPin (s : PinStates) (pin : Nat) (v : Bool) : PinStates :=
  if pin = 17 then { s with p17 := v }
  else if pin = 18 then { s with p18 := v }
  else if pin = 22 then { s with p22 := v }
  else if pin = 23 then { s with p23 := v }
  else s

/-- Keys of the `pin_states` dict, as an enumerated type (the source mixes
int keys for motors and string keys for accessories). -/
inductive PinKey where
  | pin17 | pin18 | pin22 | pin23
  | pump | vacuum | centre | side
  | mop | mop_up | mop_down
  | centre_brush | centre_brush_up | centre_brush_down
deriving DecidableEq, Repr

/-- Read one pin of the state (`pin_states[key]`). -/
def readPin (s : PinStates) : PinKey → Bool
  | .pin17 => s.p17
  | .pin18 => s.p18
  | .pin22 => s.p22
  | .pin23 => s.p23
  | .pump => s.pump
  | .vacuum => s.vacuum
  | .centre => s.centre
  | .side => s.side
  | .mop => s.mop
  | .mop_up => s.mop_up
  | .mop_down => s.mop_down
  | .centre_brush => s.centre_brush
  | .centre_brush_up => s.centre_brush_up
  | .centre_brush_down => s.centre_brush_down

/-- The movement-group keys (`MOTOR_PINS.values()`). -/
def movementKeys : List PinKey := [.pin17, .pin18, .pin22, .pin23]

/-- The pin `MOTOR_PINS[direction]` as a `PinKey`. -/
def motorKey (direction : String) : Option PinKey :=
  if direction = "forward" then some .pin17
  else if direction = "backward" then some .pin18
  else if direction = "left" then some .pin22
  else if direction = "right" then some .pin23
  else none

/-- Every registered pin key (all keys of `pin_states`). -/
def allKeys : List PinKey :=
  [.pin17, .pin18, .pin22, .pin23, .pump, .vacuum, .centre, .side,
   .mop, .mop_up, .mop_down, .centre_brush, .centre_brush_up, .centre_brush_down]

/-- The valid movement direction names (keys of `MOTOR_PINS`). -/
def movementDirections : List String := ["forward", "backward", "left", "right"]

/-- Number of movement pins currently high. -/
def movementHighCount (s : PinStates) : Nat :=
  (if s.p17 then 1 else 0) + (if s.p18 then 1 else 0) +
  (if s.p22 then 1 else 0) + (if s.p23 then 1 else 0)

/-- Helper `stop_all_motors`: sets every pin in `MOTOR_PINS.values()` low. -/
def stop_all_motors (s : PinStates) : PinStates :=
  { s with p17 := false, p18 := false, p22 := false, p23 := false }

/-- Helper `stop_everything`: sets every key of `pin_states` low. -/
def stop_everything (_ : PinStates) : PinStates :=
  initial_pin_states

/-- Route `/move/<direction>`: clears all motor pins, then either sets the
requested direction pin, handles `"stop"`, or returns a 400 error. -/
def move (direction : String) (s : PinStates) : PinStates × Response :=
  let s1 := stop_all_motors s
  match motorPin direction with
  | some pin =>
      (setMotorPin s1 pin true,
       { body := [("status", "Simulated moving " ++ direction)], code := 200 })
  | none =>
      if direction = "stop" then
        (stop_all_motors s1,
         { body := [("status", "Simulated stop movement")], code := 200 })
      else
        (s1, { body := [("error", "Invalid direction")], code := 400 })

/-- Route `/toggle/pump`. -/
def toggle_pump (s : PinStates) : PinStates × Response :=
  let s1 := { s with pump := !s.pump }
  (s1, { body := [("pump", if s1.pump then "on" else "off")], code := 200 })

/-- Route `/toggle/vacuum`. -/
def toggle_vacuum (s : PinStates) : PinStates × Response :=
  let s1 := { s with vacuum := !s.vacuum }
  (s1, { body := [("vacuum", if s1.vacuum then "on" else "off")], code := 200 })

/-- Route `/toggle/centre`. -/
def toggle_centre (s : PinStates) : PinStates × Response :=
  let s1 := { s with centre := !s.centre }
  (s1, { body := [("centre", if s1.centre then "on" else "off")], code := 200 })

/-- Route `/toggle/side`. -/
def toggle_side (s : PinStates) : PinStates × Response :=
  let s1 := { s with side := !s.side }
  (s1, { body := [("side", if s1.side then "on" else "off")], code := 200 })

/-- Route `/toggle/mop`. -/
def toggle_mop (s : PinStates) : PinStates × Response :=
  let s1 := { s with mop := !s.mop }
  (s1, { body := [("mop", if s1.mop then "on" else "off")], code := 200 })

/-- Route `/mop/up`. -/
def mop_up (s : PinStates) : PinStates × Response :=
  let s1 := { s with mop_up := true, mop_down := false }
  (s1, { body := [("mop", "moving up")], code := 200 })

/-- Route `/mop/down`. -/
def mop_down (s : PinStates) : PinStates × Response :=
  let s1 := { s with mop_down := true, mop_up := false }
  (s1, { body := [("mop", "moving down")], code := 200 })

/-- Route `/toggle/centrebrush` (note: the JSON key it answers with is
`centre_brush`, the pin name, not the route segment `centrebrush`). -/
def toggle_centrebrush (s : PinStates) : PinStates × Response :=
  let s1 := { s with centre_brush := !s.centre_brush }
  (s1, { body := [("centre_brush", if s1.centre_brush then "on" else "off")], code := 200 })

/-- Route `/centrebrush/up`. -/
def centre_brush_up (s : PinStates) : PinStates × Response :=
  let s1 := { s with centre_brush_up := true, centre_brush_down := false }
  (s1, { body := [("centre_brush", "moving up")], code := 200 })

/-- Route `/centrebrush/down`. -/
def centre_brush_down (s : PinStates) : PinStates × Response :=
  let s1 := { s with centre_brush_down := true, centre_brush_up := false }
  (s1, { body := [("centre_brush", "moving down")], code := 200 })

/-- Route `/stop/move`. -/
def stop_move (s : PinStates) : PinStates × Response :=
  (stop_all_motors s, { body := [("status", "All movement stopped")], code := 200 })

/-- Route `/stop/all`. -/
def stop_all (s : PinStates) : PinStates × Response :=
  (stop_everything s, { body := [("status", "All systems stopped")], code := 200 })

/-- Route `/`. -/
def home : Response :=
  { body := [("message", "Robot control API running (simulation mode)")], code := 200 }

example :
    (move "forward" initial_pin_states).2 =
      { body := [("status", "Simulated moving forward")], code := 200 } := by decide

example : (move "forward" initial_pin_states).1.p17 = true := by decide

example : (move "sideways" initial_pin_states).2.code = 400 := by decide

/-! ## Helper lemmas -/

lemma motorPin_of_not_mem (d : String) (h : d ∉ movementDirections) :
    motorPin d = none := by
  simp [movementDirections] at h
  simp [motorPin, h.1, h.2.1, h.2.2.1, h.2.2.2]

lemma mhc_move_mem (d : String) (t : PinStates) (h : d ∈ movementDirections) :
    movementHighCount (move d t).1 = 1 := by
  simp [movementDirections] at h
  rcases h with h | h | h | h <;> subst h <;>
    simp [move, motorPin, setMotorPin, stop_all_motors, movementHighCount]

lemma mhc_move_not_mem (d : String) (t : PinStates) (h : d ∉ movementDirections) :
    movementHighCount (move d t).1 = 0 := by
  have hnone := motorPin_of_not_mem d h
  by_cases hs : d = "stop"
  · subst hs
    simp [move, motorPin, stop_all_motors, movementHighCount]
  · simp [move, hnone, hs, stop_all_motors, movementHighCount]

/-! ## Claims -/

/-- C1: after `move(d1); move(d2)` exactly one movement pin is high when
`d2` is a valid direction and zero when `d2 = "stop"`; in general after any
`move` call at most one movement pin is high. -/
theorem claim_C1 (d1 d2 : String) (s : PinStates) :
    (d2 ∈ movementDirections →
      movementHighCount (move d2 (move d1 s).1).1 = 1) ∧
    (d2 = "stop" →
      movementHighCount (move d2 (move d1 s).1).1 = 0) ∧
    (∀ d : String, ∀ t : PinStates, movementHighCount (move d t).1 ≤ 1) := by
  refine ⟨fun h => mhc_move_mem d2 _ h, fun h => ?_, fun d t => ?_⟩
  · subst h
    exact mhc_move_not_mem "stop" _ (by decide)
  · by_cases h : d ∈ movementDirections
    · rw [mhc_move_mem d t h]
    · rw [mhc_move_not_mem d t h]
      exact Nat.zero_le 1

/-- Witness for C1 at `d1 = "forward"`, `d2 = "left"`, from the initial state. -/
theorem claim_C1_witness :
    movementHighCount (move "left" (move "forward" initial_pin_states).1).1 = 1 :=
  (claim_C1 "forward" "left" initial_pin_states).1 (by decide)

/-- C2: for a direction that is neither a movement direction nor `"stop"`,
`move` answers 400 with an Invalid-direction body and the resulting state is
exactly the movement-group clear of the prior state (so every movement pin
is low and no other pin is touched). -/
theorem claim_C2 (d : String) (s : PinStates)
    (h1 : d ∉ movementDirections) (h2 : d ≠ "stop") :
    (move d s).1 = stop_all_motors s ∧
    (move d s).2 = { body := [("error", "Invalid direction")], code := 400 } ∧
    (∀ k ∈ movementKeys, readPin (move d s).1 k = false) := by
  have hnone := motorPin_of_not_mem d h1
  have hstate : (move d s).1 = stop_all_motors s := by simp [move, hnone, h2]
  refine ⟨hstate, by simp [move, hnone, h2], ?_⟩
  intro k hk
  rw [hstate]
  simp [movementKeys] at hk
  rcases hk with rfl | rfl | rfl | rfl <;> rfl

/-- Witness for C2 at the unknown direction `"sideways"`. -/
theorem claim_C2_witness :
    (move "sideways" initial_pin_states).2 =
      { body := [("error", "Invalid direction")], code := 400 } :=
  (claim_C2 "sideways" initial_pin_states (by decide) (by decide)).2.1

/-- C3: for each positional pair, `up` then `down` leaves the down pin high
and the up pin low; each single call sets the requested pin high and its
sibling low, from any prior state. -/
theorem claim_C3 (s : PinStates) :
    ((mop_down (mop_up s).1).1.mop_down = true ∧
     (mop_down (mop_up s).1).1.mop_up = false) ∧
    ((centre_brush_down (centre_brush_up s).1).1.centre_brush_down = true ∧
     (centre_brush_down (centre_brush_up s).1).1.centre_brush_up = false) ∧
    ((mop_up s).1.mop_up = true ∧ (mop_up s).1.mop_down = false) ∧
    ((mop_down s).1.mop_down = true ∧ (mop_down s).1.mop_up = false) ∧
    ((centre_brush_up s).1.centre_brush_up = true ∧
     (centre_brush_up s).1.centre_brush_down = false) ∧
    ((centre_brush_down s).1.centre_brush_down = true ∧
     (centre_brush_down s).1.centre_brush_up = false) :=
  ⟨⟨rfl, rfl⟩, ⟨rfl, rfl⟩, ⟨rfl, rfl⟩, ⟨rfl, rfl⟩, ⟨rfl, rfl⟩, ⟨rfl, rfl⟩⟩

/-- C4: `stopAll` leaves every registered pin low regardless of prior state
and answers 200; every pin `stopMovement` clears is also cleared by
`stopAll`, and some pin (the pump) survives `stopMovement` but not
`stopAll`, so the cleared set is a strict superset. -/
theorem claim_C4 (s : PinStates) :
    (∀ k ∈ allKeys, readPin (stop_all s).1 k = false) ∧
    (stop_all s).2 = { body := [("status", "All systems stopped")], code := 200 } ∧
    (∀ (k : PinKey) (t : PinStates),
      readPin (stop_move t).1 k = false → readPin (stop_all t).1 k = false) ∧
    (∃ (k : PinKey) (t : PinStates),
      readPin (stop_all t).1 k = false ∧ readPin (stop_move t).1 k = true) := by
  refine ⟨fun k _ => ?_, rfl, fun k t _ => ?_, ?_⟩
  · cases k <;> rfl
  · cases k <;> rfl
  · exact ⟨PinKey.pump, { initial_pin_states with pump := true }, rfl, rfl⟩

/-- Witness for C4: after `stopAll` from a state with the pump on, the pump
pin reads low. -/
theorem claim_C4_witness :
    readPin (stop_all { initial_pin_states with pump := true }).1 PinKey.pump = false :=
  (claim_C4 { initial_pin_states with pump := true }).1 PinKey.pump (by decide)

/-- C5: each accessory toggle is an involution on the state, writes the
negation of the level it read, and reports the new level in its response. -/
theorem claim_C5 (s : PinStates) :
    ((toggle_pump (toggle_pump s).1).1 = s ∧
     (toggle_pump s).1.pump = !s.pump ∧
     (toggle_pump s).2 =
       { body := [("pump", if !s.pump then "on" else "off")], code := 200 }) ∧
    ((toggle_vacuum (toggle_vacuum s).1).1 = s ∧
     (toggle_vacuum s).1.vacuum = !s.vacuum ∧
     (toggle_vacuum s).2 =
       { body := [("vacuum", if !s.vacuum then "on" else "off")], code := 200 }) ∧
    ((toggle_centre (toggle_centre s).1).1 = s ∧
     (toggle_centre s).1.centre = !s.centre ∧
     (toggle_centre s).2 =
       { body := [("centre", if !s.centre then "on" else "off")], code := 200 }) ∧
    ((toggle_side (toggle_side s).1).1 = s ∧
     (toggle_side s).1.side = !s.side ∧
     (toggle_side s).2 =
       { body := [("side", if !s.side then "on" else "off")], code := 200 }) ∧
    ((toggle_mop (toggle_mop s).1).1 = s ∧
     (toggle_mop s).1.mop = !s.mop ∧
     (toggle_mop s).2 =
       { body := [("mop", if !s.mop then "on" else "off")], code := 200 }) ∧
    ((toggle_centrebrush (toggle_centrebrush s).1).1 = s ∧
     (toggle_centrebrush s).1.centre_brush = !s.centre_brush ∧
     (toggle_centrebrush s).2 =
       { body := [("centre_brush", if !s.centre_brush then "on" else "off")], code := 200 }) := by
  cases s
  simp [toggle_pump, toggle_vacuum, toggle_centre, toggle_side, toggle_mop,
    toggle_centrebrush]

/-- C6: when the requested direction's pin is the unique high movement pin,
`move` leaves the whole state unchanged. -/
theorem claim_C6 (d : String) (k : PinKey) (s : PinStates)
    (hd : motorKey d = some k) (hk : readPin s k = true)
    (hu : movementHighCount s = 1) :
    (move d s).1 = s := by
  have hd4 : d = "forward" ∨ d = "backward" ∨ d = "left" ∨ d = "right" := by
    by_contra hc
    push_neg at hc
    simp [motorKey, hc.1, hc.2.1, hc.2.2.1, hc.2.2.2] at hd
  rcases hd4 with rfl | rfl | rfl | rfl
  · rw [show motorKey "forward" = some PinKey.pin17 from rfl] at hd
    obtain rfl : PinKey.pin17 = k := Option.some.inj hd
    obtain ⟨b1, b2, b3, b4, b5, b6, b7, b8, b9, b10, b11, b12, b13, b14⟩ := s
    simp only [readPin] at hk
    subst hk
    cases b2 <;> cases b3 <;> cases b4 <;>
      first
      | rfl
      | simp [movementHighCount] at hu
  · rw [show motorKey "backward" = some PinKey.pin18 from rfl] at hd
    obtain rfl : PinKey.pin18 = k := Option.some.inj hd
    obtain ⟨b1, b2, b3, b4, b5, b6, b7, b8, b9, b10, b11, b12, b13, b14⟩ := s
    simp only [readPin] at hk
    subst hk
    cases b1 <;> cases b3 <;> cases b4 <;>
      first
      | rfl
      | simp [movementHighCount] at hu
  · rw [show motorKey "left" = some PinKey.pin22 from rfl] at hd
    obtain rfl : PinKey.pin22 = k := Option.some.inj hd
    obtain ⟨b1, b2, b3, b4, b5, b6, b7, b8, b9, b10, b11, b12, b13, b14⟩ := s
    simp only [readPin] at hk
    subst hk
    cases b1 <;> cases b2 <;> cases b4 <;>
      first
      | rfl
      | simp [movementHighCount] at hu
  · rw [show motorKey "right" = some PinKey.pin23 from rfl] at hd
    obtain rfl : PinKey.pin23 = k := Option.some.inj hd
    obtain ⟨b1, b2, b3, b4, b5, b6, b7, b8, b9, b10, b11, b12, b13, b14⟩ := s
    simp only [readPin] at hk
    subst hk
    cases b1 <;> cases b2 <;> cases b3 <;>
      first
      | rfl
      | simp [movementHighCount] at hu

/-- Witness for C6: repeating `move("forward")` from the state where only
the forward pin is high changes nothing. -/
theorem claim_C6_witness :
    (move "forward" { initial_pin_states with p17 := true }).1 =
      { initial_pin_states with p17 := true } :=
  claim_C6 "forward" PinKey.pin17 { initial_pin_states with p17 := true }
    (by decide) (by decide) (by decide)

/-- C7 counterexample: `move("forward")` does not answer with the body
`{"status": "Moving forward"}` — the code prefixes the status with
`Simulated`. -/
theorem claim_C7_counterexample :
    (move "forward" initial_pin_states).2 ≠
      { body := [("status", "Moving forward")], code := 200 } := by decide

/-- C7 (amended): for every movement direction `d`, `move(d)` answers 200
with body `{"status": "Simulated moving <d>"}`, and `move("stop")` answers
200 with body `{"status": "Simulated stop movement"}`. -/
theorem claim_C7 (d : String) (s : PinStates) (h : d ∈ movementDirections) :
    (move d s).2 =
      { body := [("status", "Simulated moving " ++ d)], code := 200 } ∧
    (move "stop" s).2 =
      { body := [("status", "Simulated stop movement")], code := 200 } := by
  simp [movementDirections] at h
  rcases h with rfl | rfl | rfl | rfl <;> exact ⟨rfl, rfl⟩

/-- Witness for C7 at `d = "forward"`. -/
theorem claim_C7_witness :
    (move "forward" initial_pin_states).2 =
      { body := [("status", "Simulated moving forward")], code := 200 } :=
  (claim_C7 "forward" initial_pin_states (by decide)).1

/-- C8 counterexample: toggling the centre brush from fresh state does not
answer with JSON key `centrebrush` (the request name); the code uses key
`centre_brush`. -/
theorem claim_C8_counterexample :
    (toggle_centrebrush initial_pin_states).2 ≠
      { body := [("centrebrush", "on")], code := 200 } := by decide

/-- C8 (amended): each toggle answers 200 with a single-key JSON body whose
value is `on` exactly when the new level is high; the key is the request
name for pump, vacuum, centre, side and mop, but for the `centrebrush`
request it is the pin name `centre_brush`. The pump on fresh state answers
`on`, then `off`. -/
theorem claim_C8 (s : PinStates) :
    ((toggle_pump s).2 =
      { body := [("pump", if !s.pump then "on" else "off")], code := 200 }) ∧
    ((toggle_vacuum s).2 =
      { body := [("vacuum", if !s.vacuum then "on" else "off")], code := 200 }) ∧
    ((toggle_centre s).2 =
      { body := [("centre", if !s.centre then "on" else "off")], code := 200 }) ∧
    ((toggle_side s).2 =
      { body := [("side", if !s.side then "on" else "off")], code := 200 }) ∧
    ((toggle_mop s).2 =
      { body := [("mop", if !s.mop then "on" else "off")], code := 200 }) ∧
    ((toggle_centrebrush s).2 =
      { body := [("centre_brush", if !s.centre_brush then "on" else "off")], code := 200 }) ∧
    ((toggle_pump initial_pin_states).2 =
      { body := [("pump", "on")], code := 200 }) ∧
    ((toggle_pump (toggle_pump initial_pin_states).1).2 =
      { body := [("pump", "off")], code := 200 }) :=
  ⟨rfl, rfl, rfl, rfl, rfl, rfl, by decide, by decide⟩

/-- C9 counterexample: the home route body is not
`{"message": "Robot control API running"}` — the code appends
`(simulation mode)`. -/
theorem claim_C9_counterexample :
    home ≠ { body := [("message", "Robot control API running")], code := 200 } := by
  decide

/-- C9 (amended): the home route always answers 200 with body
`{"message": "Robot control API running (simulation mode)"}`. -/
theorem claim_C9 :
    home =
      { body := [("message", "Robot control API running (simulation mode)")],
        code := 200 } := rfl

/-- C10: the combined mop and centre-brush toggles change no pin but their
own (in particular the up/down pins survive), and the positional up/down
operations change no pin outside their pair (in particular the combined
toggle pin survives). -/
theorem claim_C10 (s : PinStates) (k : PinKey) :
    (k ≠ PinKey.mop → readPin (toggle_mop s).1 k = readPin s k) ∧
    (k ≠ PinKey.centre_brush →
      readPin (toggle_centrebrush s).1 k = readPin s k) ∧
    (k ≠ PinKey.mop_up → k ≠ PinKey.mop_down →
      readPin (mop_up s).1 k = readPin s k ∧
      readPin (mop_down s).1 k = readPin s k) ∧
    (k ≠ PinKey.centre_brush_up → k ≠ PinKey.centre_brush_down →
      readPin (centre_brush_up s).1 k = readPin s k ∧
      readPin (centre_brush_down s).1 k = readPin s k) := by
  cases k <;>
    simp [readPin, toggle_mop, toggle_centrebrush, mop_up, mop_down,
      centre_brush_up, centre_brush_down]

/-- Witness for C10: toggling the mop leaves the mop-up pin unchanged. -/
theorem claim_C10_witness :
    readPin (toggle_mop initial_pin_states).1 PinKey.mop_up =
      readPin initial_pin_states PinKey.mop_up :=
  (claim_C10 initial_pin_states PinKey.mop_up).1 (by decide)
